import Mathlib

/-!
# Deita query safety-and-execution subsystem — verification development

A shallow embedding of the query subsystem of the Deita backend:

* `app/services/query_service.py` — `QueryService`: validation
  (`validate_query`, `_validate_query_and_map_tables`,
  `_get_all_expression_items`, `_get_read_csv_calls_for_file`), pagination
  (`_add_limit`) and execution (`execute_query`);
* `app/api/workspaces.py` — the HTTP query endpoint (`execute_query` route)
  and the streaming CSV export (`generate_csv_stream`);
* `app/services/exceptions.py` — the exception classes the service imports.

External collaborators are modelled at their interfaces: the sqlglot parser
and scope builder by an expression tree and a scope walk following the
sqlglot AST primer the source itself cites, and the DuckDB engine by an
explicit evaluator over an object store, or by an arbitrary function of the
prepared statement where a claim holds for every engine.
-/

set_option autoImplicit false

namespace Deita

/-! ## Scalar values, rows, files, settings -/

/-- A scalar value in a result row (engine value). -/
inductive Val where
  | int (n : Int)
  | str (s : String)
  deriving DecidableEq, Repr

/-- A result row: one tuple fetched from the engine. -/
abbrev Row := List Val

/-- `app.models.file.File`, restricted to the fields the query service reads:
`table_name`, `storage_path` and the `csv_metadata` entries `delimiter` and
`quotechar` (`none` models an absent key of the JSON metadata). -/
structure File where
  table_name : String
  storage_path : String
  delimiter : Option String
  quotechar : Option String
  deriving DecidableEq, Repr

/-- `app.core.config.Settings`, restricted to the fields the query subsystem
reads: `duckdb_page_size` (default 50) and `s3_bucket_name`. -/
structure Settings where
  duckdb_page_size : Int := 50
  s3_bucket_name : String := "deita-files"
  deriving DecidableEq, Repr

/-- Python truthiness of `csv_metadata.get(key)`: a present, non-empty
string. -/
def truthy : Option String → Bool
  | none => false
  | some v => v ≠ ""

/-! ## The sqlglot expression classes the service names

`QueryService.DISALLOWED_EXPRESSIONS` (query_service.py lines 64-68) is a set
of sqlglot expression *classes*; the check on line 103 is
`type(item) in DISALLOWED_EXPRESSIONS`. We model the classes as an
enumeration: the thirty disallowed statement classes, plus the two kinds of
value that actually occur in the list `_get_all_expression_items` builds —
`Table` nodes and `Scope` objects (a scope stands for a selected source that
is a CTE or a subquery, per `sqlglot.optimizer.scope.Scope.selected_sources`,
whose values are `Scope | exp.Table`). -/
inductive ExprType where
  | insert | update | delete | merge | create | drop | alter | truncateTable
  | clone | analyze | commit | rollback | transaction | grant | revoke
  | exportE | cache | uncache | kill | pragma | describe | showE | useE
  | setE | lock | comment | cluster | detach | attach | replace
  | table | scope
  deriving DecidableEq, Repr

/-- `QueryService.DISALLOWED_EXPRESSIONS` (query_service.py lines 64-68). -/
def disallowedExpressions : List ExprType :=
  [.insert, .update, .delete, .merge, .create, .drop, .alter, .truncateTable,
   .clone, .analyze, .commit, .rollback, .transaction, .grant, .revoke,
   .exportE, .cache, .uncache, .kill, .pragma, .describe, .showE, .useE,
   .setE, .lock, .comment, .cluster, .detach, .attach, .replace]

/-- The `__name__` of each modelled sqlglot class, used in the
`DisallowedQuery` message (query_service.py line 104). -/
def exprTypeName : ExprType → String
  | .insert => "Insert" | .update => "Update" | .delete => "Delete"
  | .merge => "Merge" | .create => "Create" | .drop => "Drop"
  | .alter => "Alter" | .truncateTable => "TruncateTable" | .clone => "Clone"
  | .analyze => "Analyze" | .commit => "Commit" | .rollback => "Rollback"
  | .transaction => "Transaction" | .grant => "Grant" | .revoke => "Revoke"
  | .exportE => "Export" | .cache => "Cache" | .uncache => "Uncache"
  | .kill => "Kill" | .pragma => "Pragma" | .describe => "Describe"
  | .showE => "Show" | .useE => "Use" | .setE => "Set" | .lock => "Lock"
  | .comment => "Comment" | .cluster => "Cluster" | .detach => "Detach"
  | .attach => "Attach" | .replace => "Replace"
  | .table => "Table" | .scope => "Scope"

/-! ## The parsed expression tree

The fragment of the sqlglot tree the service manipulates: a query is a
`SELECT` with an optional `WITH` list of CTEs, a list of `FROM`/`JOIN`
sources, and optional `LIMIT`/`OFFSET` clauses; a source is a named table
reference (alias `""` when the user wrote none, matching sqlglot's
`Table.alias`), a `read_csv(...)` table call (only ever produced by the
rewriter), or a derived-table subquery. Any other statement (COMMIT, INSERT,
DROP, ...) is a `stmt` node carrying its class. -/

/-- The argument structure of a `read_csv('s3://…'[, delim='…'][, quote='…'])`
call, i.e. of the string `_get_read_csv_calls_for_file` builds and
`to_table` re-parses (query_service.py lines 89-96, 110). -/
structure ReadCsvCall where
  path : String
  delim : Option String
  quote : Option String
  deriving DecidableEq, Repr

/-- A select-list projection: `*`, `COUNT(*) AS count`, or one possibly
qualified column `qual.name` (`qual = ""` when unqualified). -/
inductive Proj where
  | star
  | countStar
  | col (qual : String) (name : String)
  deriving DecidableEq, Repr

mutual
/-- A `SELECT` query: projection, `WITH` list, sources, `LIMIT`, `OFFSET`. -/
inductive SelectQ : Type where
  | mk (proj : Proj) (ctes : CteList) (srcs : SrcList) (lim : Option Int)
      (off : Option Int)

/-- The `WITH` list: each CTE is a name and a query body. -/
inductive CteList : Type where
  | nil
  | cons (name : String) (body : SelectQ) (rest : CteList)

/-- The `FROM`/`JOIN` source list. -/
inductive SrcList : Type where
  | nil
  | cons (src : Src) (rest : SrcList)

/-- One source of a scope. -/
inductive Src : Type where
  | table (name : String) (als : String)
  | readCsv (call : ReadCsvCall) (als : String)
  | sub (body : SelectQ) (als : String)
end

/-- A parsed sqlglot expression: either a query (the only shape
`build_scope` accepts) or a bare statement node of another class, e.g.
`COMMIT`, `DROP TABLE t`, `INSERT INTO t VALUES (1)`. -/
inductive Expression where
  | query (q : SelectQ)
  | stmt (t : ExprType)

/-- Raw SQL text as submitted, abstracted to its parse: `wellFormed e` is
text that parses to `e`, `malformed d` is text `parse_one` rejects with
diagnostic `d`. -/
inductive SqlText where
  | wellFormed (e : Expression)
  | malformed (diag : String)

/-- `sqlglot.parse_one` (query_service.py lines 164, 339): the parse of the
text, or a `ParseError`/`TokenError` diagnostic. -/
def parseOne : SqlText → Except String Expression
  | .wellFormed e => .ok e
  | .malformed d => .error d

/-! ## Errors

`app/services/exceptions.py` defines `BadQuery` and `DisallowedQuery` (its
lines 37-41). These are the only error kinds the query pipeline can raise:
the `QueryTimeout` name `query_service.py` imports and raises is *not
defined anywhere in the repository* — see `exceptionsModuleNames` below. -/

/-- The exceptions the query pipeline raises, with their message. -/
inductive QErr where
  | badQuery (msg : String)
  | disallowedQuery (msg : String)
  deriving DecidableEq, Repr

/-! ## Table lookup and the rewriter -/

/-- `tables_map` (query_service.py lines 99-101): the dict comprehension
`{file.table_name: file for file in files}` — on duplicate `table_name` the
later file overwrites the earlier one. -/
def tablesMapLookup (files : List File) (n : String) : Option File :=
  files.foldl (fun acc f => if f.table_name = n then some f else acc) none

/-- `_get_read_csv_calls_for_file` (query_service.py lines 89-96): the
`read_csv` call for a file — the s3 URL of its object, plus `delim`/`quote`
arguments exactly when the corresponding `csv_metadata` entry is truthy. -/
def getReadCsvCallsForFile (s : Settings) (file : File) : ReadCsvCall :=
  { path := "s3://" ++ s.s3_bucket_name ++ "/" ++ file.storage_path,
    delim := if truthy file.delimiter then file.delimiter else none,
    quote := if truthy file.quotechar then file.quotechar else none }

/-- The `BadQuery` message of query_service.py line 108. -/
def unknownTableMsg (n : String) : String :=
  "Table \'" ++ n ++ "\' does not exist in the workspace."

/-- The class of a selected source as `_get_all_expression_items` yields it
(query_service.py lines 83-87, following the sqlglot AST primer): a plain
table reference whose name is no visible CTE is an `exp.Table`; a reference
to a CTE, and a derived-table subquery, stand for the corresponding `Scope`
object of `Scope.selected_sources`; a `read_csv(...)` table call is an
`exp.Table` wrapping the function call. `env` is the list of CTE names
visible in the scope. -/
def srcExprType (env : List String) : Src → ExprType
  | .table n _ => if n ∈ env then .scope else .table
  | .readCsv _ _ => .table
  | .sub _ _ => .scope

mutual
/-- `_validate_query_and_map_tables` restricted to one scope tree
(query_service.py lines 98-113): walk every scope's selected sources; a
source whose class is in `DISALLOWED_EXPRESSIONS` raises `DisallowedQuery`;
a `Table` source is looked up in `tables_map` — absent raises `BadQuery`,
present is replaced in place by the `read_csv` call with the alias set to
`item.alias or table_name`. CTE references resolve to their scope and are
left untouched. -/
def validateMapSelect (s : Settings) (files : List File) (env : List String) :
    SelectQ → Except QErr SelectQ
  | .mk proj ctes srcs lim off => do
    let (ctes', env') ← validateMapCtes s files env ctes
    let srcs' ← validateMapSrcs s files env' srcs
    pure (.mk proj ctes' srcs' lim off)

/-- The CTE scopes of a `WITH` list: each body is its own scope, and each
CTE's name becomes visible to the CTEs after it and to the main sources. -/
def validateMapCtes (s : Settings) (files : List File) (env : List String) :
    CteList → Except QErr (CteList × List String)
  | .nil => pure (.nil, env)
  | .cons n body rest => do
    let body' ← validateMapSelect s files env body
    let (rest', env') ← validateMapCtes s files (env ++ [n]) rest
    pure (.cons n body' rest', env')

/-- The selected sources of one scope, in order. -/
def validateMapSrcs (s : Settings) (files : List File) (env : List String) :
    SrcList → Except QErr SrcList
  | .nil => pure .nil
  | .cons src rest => do
    let src' ← validateMapSrc s files env src
    let rest' ← validateMapSrcs s files env rest
    pure (.cons src' rest')

/-- One selected source: the disallowed-class check of line 103, then the
`Table` branch of lines 105-112. A subquery source is a `Scope`: the check
on it is type-membership of `Scope` in the class set (always false), and its
own sources are reached when the scope walk traverses the child scope. -/
def validateMapSrc (s : Settings) (files : List File) (env : List String) :
    Src → Except QErr Src
  | .table n a =>
    if srcExprType env (.table n a) ∈ disallowedExpressions then
      throw (.disallowedQuery
        ("Disallowed expression: " ++ exprTypeName (srcExprType env (.table n a))))
    else if n ∈ env then
      pure (.table n a)
    else
      match tablesMapLookup files n with
      | none => throw (.badQuery (unknownTableMsg n))
      | some file =>
        pure (.readCsv (getReadCsvCallsForFile s file) (if a = "" then n else a))
  | .readCsv c a =>
    if srcExprType env (.readCsv c a) ∈ disallowedExpressions then
      throw (.disallowedQuery
        ("Disallowed expression: " ++ exprTypeName (srcExprType env (.readCsv c a))))
    else
      match tablesMapLookup files "" with
      | none => throw (.badQuery (unknownTableMsg ""))
      | some file =>
        pure (.readCsv (getReadCsvCallsForFile s file) (if a = "" then "" else a))
  | .sub body a => do
    if srcExprType env (.sub body a) ∈ disallowedExpressions then
      throw (.disallowedQuery
        ("Disallowed expression: " ++ exprTypeName (srcExprType env (.sub body a))))
    else
      pure (.sub (← validateMapSelect s files env body) a)
end

/-- `_validate_query_and_map_tables` (query_service.py lines 98-113) on a
whole expression. `build_scope` (line 80) returns a scope tree only for
query expressions — for any other statement it returns `None` and
`_get_all_expression_items` raises `BadQuery` (lines 81-82). -/
def validateQueryAndMapTables (s : Settings) (expression : Expression)
    (files : List File) : Except QErr Expression :=
  match expression with
  | .stmt _ => throw (.badQuery "Unable to build scope for the query.")
  | .query q => Expression.query <$> validateMapSelect s files [] q

/-- `QueryService.validate_query` (query_service.py lines 153-167):
parse, then validate-and-map; `ParseError`/`TokenError` becomes
`BadQuery("Invalid SQL query: …")`, while errors from the validation walk
propagate unchanged. -/
def validateQuery (s : Settings) (query : SqlText) (files : List File) :
    Except QErr Unit :=
  match parseOne query with
  | .error e => .error (.badQuery ("Invalid SQL query: " ++ e))
  | .ok expression => (validateQueryAndMapTables s expression files).map fun _ => ()

/-! ## Execution pipeline -/

/-- `QueryResult` (app/schemas/query.py): columns, rows, elapsed time and the
has-more flag. Wall-clock time is outside the embedding; the model reports
`0`. -/
structure QueryResult where
  columns : List String
  rows : List Row
  time : Nat := 0
  has_more : Bool := false
  deriving DecidableEq, Repr

/-- The raw fetch of `_execute_ducbkdb` (query_service.py lines 141-144):
`result.columns` and `result.fetchall()`. -/
structure EngineResult where
  columns : List String
  rows : List Row
  deriving DecidableEq, Repr

/-- The embedded engine as `execute_query` consumes it: the prepared
statement in, columns and rows out, or a `duckdb.Error` message. Claims
that hold whatever the engine does are stated for every `Engine`. -/
abbrev Engine := Expression → Except String EngineResult

/-- The count-mode wrapping of `execute_query` (query_service.py lines
336-338): the query text is stripped of a trailing `;` and interpolated into
`SELECT COUNT(*) AS count FROM (<query>) q`, then parsed. On a query the
wrap parses to a `COUNT(*)` select over the original query as the derived
table `q`; interpolating a non-query statement (e.g. `COMMIT`) yields text
that does not parse. -/
def countWrap : SqlText → SqlText
  | .wellFormed (.query q) =>
    .wellFormed (.query (.mk .countStar .nil (.cons (.sub q "q") .nil) none none))
  | .wellFormed (.stmt t) =>
    .malformed ("no viable alternative at input (" ++ exprTypeName t ++ ")")
  | .malformed d => .malformed d

/-- `QueryService._add_limit` (query_service.py lines 74-76):
`expr.limit(size + 1).offset((page - 1) * size)` — sqlglot's `limit`/`offset`
set the top-level clauses, overwriting any the statement already had. Only
query expressions reach this call. -/
def addLimit (expr : Expression) (page : Int) (size : Int) : Expression :=
  match expr with
  | .query (.mk proj ctes srcs _ _) =>
    .query (.mk proj ctes srcs (some (size + 1)) (some ((page - 1) * size)))
  | e => e

/-- The pure prefix of `execute_query` (query_service.py lines 334-344): pick
the effective size, wrap in count mode, parse, validate-and-map, and inject
the limit in row mode. The result is the statement handed to the engine. -/
def preparedStatement (s : Settings) (query : SqlText) (files : List File)
    (page : Option Int) (size : Option Int) (count : Bool) :
    Except QErr Expression :=
  let size := size.getD s.duckdb_page_size
  let query := if count then countWrap query else query
  match parseOne query with
  | .error e => .error (.badQuery e)
  | .ok expression =>
    match validateQueryAndMapTables s expression files with
    | .error err => .error err
    | .ok expression =>
      if !count && page.isSome then
        .ok (addLimit expression (page.getD 1) (size))
      else
        .ok expression

/-- `QueryService.execute_query` (query_service.py lines 330-356): prepare
the statement, run it on the engine, then assemble the `QueryResult` — in
row mode (`not count and page is not None`) the fetched rows are truncated
to `size`; `has_more` is `len(rows) > size` over the *untruncated* fetch.
`ParseError`/`TokenError`/`duckdb.Error` become `BadQuery(str(e))`; errors
the validation walk raises propagate unchanged. -/
def executeQuery (s : Settings) (engine : Engine) (query : SqlText)
    (files : List File) (page : Option Int) (size : Option Int)
    (count : Bool) : Except QErr QueryResult :=
  let sizeV := size.getD s.duckdb_page_size
  let isLimited := !count && page.isSome
  match preparedStatement s query files page size count with
  | .error err => .error err
  | .ok expression =>
    match engine expression with
    | .error e => .error (.badQuery e)
    | .ok result =>
      .ok { columns := result.columns,
            rows := if isLimited then result.rows.take sizeV.toNat else result.rows,
            has_more := decide ((result.rows.length : Int) > sizeV) }

/-! ## An engine model

The embedded engine (DuckDB) is an external dependency; claims about
concrete results use this evaluator for the statement fragment the rewriter
emits: single-source selects (a `read_csv` object read, a CTE reference or a
derived table), `*`, `COUNT(*)` or single-column projections, and
`LIMIT`/`OFFSET` applied after projection. Negative limits and offsets are
engine errors, as in DuckDB. -/

/-- The object store: each s3 URL names a CSV object with columns and rows. -/
structure Store where
  cols : String → List String
  rows : String → List Row

/-- CTE results visible while evaluating a scope (latest first). -/
abbrev CteEnv := List (String × EngineResult)

/-- The effective name a source answers qualified references under: the
alias if one is set, the table name otherwise. -/
def srcBoundName : Src → String
  | .table n a => if a = "" then n else a
  | .readCsv _ a => a
  | .sub _ a => a

/-- Apply the projection of a select to the base result; `als` is the bound
name of the single source, against which a qualifier must resolve. -/
def applyProj (p : Proj) (als : String) (base : EngineResult) :
    Except String EngineResult :=
  match p with
  | .star => .ok base
  | .countStar => .ok { columns := ["count"], rows := [[Val.int base.rows.length]] }
  | .col q n =>
    if q ≠ "" && q != als then
      .error ("Binder Error: Referenced table " ++ q ++ " not found")
    else
      match base.columns.findIdx? (· = n) with
      | none => .error ("Binder Error: Referenced column " ++ n ++ " not found")
      | some i => .ok { columns := [n],
                        rows := base.rows.map fun r => [r.getD i (Val.int 0)] }

/-- `OFFSET o` then `LIMIT l`, applied to the projected rows. -/
def applyLimits (lim off : Option Int) (r : EngineResult) :
    Except String EngineResult := do
  let rows := r.rows
  let rows ← match off with
    | none => pure rows
    | some o =>
      if o < 0 then throw "OFFSET must not be negative"
      else pure (rows.drop o.toNat)
  let rows ← match lim with
    | none => pure rows
    | some l =>
      if l < 0 then throw "LIMIT must not be negative"
      else pure (rows.take l.toNat)
  pure { columns := r.columns, rows := rows }

mutual
/-- Evaluate one select: bring its CTEs into scope, evaluate its single
source, project, then apply offset and limit. -/
def evalSelect (st : Store) (cenv : CteEnv) : SelectQ → Except String EngineResult
  | .mk proj ctes srcs lim off => do
    let cenv' ← evalCtes st cenv ctes
    let (base, als) ← evalSrcs st cenv' srcs
    let projed ← applyProj proj als base
    applyLimits lim off projed

/-- Evaluate a `WITH` list, extending the CTE environment left to right. -/
def evalCtes (st : Store) (cenv : CteEnv) : CteList → Except String CteEnv
  | .nil => pure cenv
  | .cons n body rest => do
    let r ← evalSelect st cenv body
    evalCtes st ((n, r) :: cenv) rest

/-- Evaluate the source list: exactly one source is modelled. -/
def evalSrcs (st : Store) (cenv : CteEnv) : SrcList →
    Except String (EngineResult × String)
  | .nil => throw "SELECT without FROM is outside the engine model"
  | .cons src .nil => evalSrc st cenv src
  | .cons _ (.cons _ _) => throw "joins are outside the engine model"

/-- Evaluate one source. A plain table reference resolves against the CTEs
in scope (after rewriting, every registered table has become a `read_csv`
read, so a surviving `table` is a CTE reference or an engine error). -/
def evalSrc (st : Store) (cenv : CteEnv) : Src → Except String (EngineResult × String)
  | .table n a =>
    match cenv.lookup n with
    | some r => .ok (r, srcBoundName (.table n a))
    | none => throw ("Catalog Error: Table with name " ++ n ++ " does not exist!")
  | .readCsv c a => .ok ({ columns := st.cols c.path, rows := st.rows c.path }, a)
  | .sub body a => do
    let r ← evalSelect st cenv body
    pure (r, a)
end

/-- The engine claims instantiate: the evaluator over a store. A statement
that is not a query never reaches the engine (validation rejects it first);
the model reports it as an engine error. -/
def runEngine (st : Store) : Engine
  | .query q => evalSelect st [] q
  | .stmt t => .error ("Parser Error: syntax error (" ++ exprTypeName t ++ ")")

/-! ## The HTTP query endpoint

`execute_query` in app/api/workspaces.py (lines 53-102), happy path after
the workspace/access checks (external collaborators): the service is called
with the requested page, `size = settings.duckdb_page_size + 1` and the
count flag; the endpoint then overwrites `has_more` with
`len(result.rows) > settings.duckdb_page_size` and truncates the rows to
`settings.duckdb_page_size`. Every exception is swallowed into an
empty-looking successful result (lines 94-102). -/
def endpointExecuteQuery (s : Settings) (engine : Engine) (query : SqlText)
    (files : List File) (page : Int) (count : Bool) : QueryResult :=
  match executeQuery s engine query files (some page)
      (some (s.duckdb_page_size + 1)) count with
  | .error _ => { columns := [], rows := [], time := 0 }
  | .ok result =>
    { result with
      has_more := decide ((result.rows.length : Int) > s.duckdb_page_size),
      rows := result.rows.take s.duckdb_page_size.toNat }

/-! ## The streaming CSV export

`generate_csv_stream` in app/api/workspaces.py (lines 119-142): a loop over
pages of `execute_query` with `size=100000`; a `csv.writer` writes records
into a `StringIO` buffer, and after each data row the buffer's content is
yielded as one chunk and the buffer truncated. `headers_set` starts `False`
and — in the source as written — is never set to `True`. -/

/-- One record the `csv.writer` writes: the header row or a data row. -/
inductive CsvRec where
  | headerRec (columns : List String)
  | rowRec (r : Row)
  deriving DecidableEq, Repr

/-- One yielded chunk: the records accumulated in the buffer since the last
truncation. -/
abbrev Chunk := List CsvRec

/-- The inner `for row in result.rows` loop (lines 133-137): each row is
written and the buffer (any pending records plus this row) is yielded, then
truncated. Returns the chunks and the final buffer — non-empty only when
the page had no rows. -/
def emitRows (buf : Chunk) : List Row → List Chunk × Chunk
  | [] => ([], buf)
  | r :: rs =>
    let (cs, b) := emitRows [] rs
    ((buf ++ [.rowRec r]) :: cs, b)

/-- The `while page is not None` loop (lines 125-142), unrolled on explicit
fuel (the source loop is unbounded; every theorem supplies enough fuel for
the pages it touches). `exec` is one call of the row-mode pipeline at a
page. An exception escaping `execute_query` aborts the generator, ending
the stream. `headers_set` is threaded exactly as in the source: written
before each page's rows when false, and never updated. -/
def csvLoop (exec : Nat → Except QErr QueryResult) :
    Nat → Nat → Bool → Chunk → List Chunk
  | 0, _, _, _ => []
  | fuel + 1, page, headers_set, buf =>
    match exec page with
    | .error _ => []
    | .ok result =>
      let buf := if !headers_set then buf ++ [.headerRec result.columns] else buf
      let (chunks, buf) := emitRows buf result.rows
      if result.has_more then
        chunks ++ csvLoop exec fuel (page + 1) headers_set buf
      else
        chunks

/-- `generate_csv_stream` (lines 119-142): the pipeline call is
`execute_query(query, files, page=page, size=100000)` and the loop starts at
page 1 with `headers_set = False` and an empty buffer. -/
def generateCsvStream (s : Settings) (engine : Engine) (query : SqlText)
    (files : List File) (fuel : Nat) : List Chunk :=
  csvLoop
    (fun page => executeQuery s engine query files (some (page : Int))
      (some 100000) false)
    fuel 1 false []

/-- The header records of a chunk list. -/
def headerCount (chunks : List Chunk) : Nat :=
  (chunks.flatten.filter fun rec => match rec with
    | .headerRec _ => true
    | .rowRec _ => false).length

/-- The data rows of a chunk list, in emission order. -/
def chunkRows (chunks : List Chunk) : List Row :=
  chunks.flatten.filterMap fun rec => match rec with
    | .headerRec _ => none
    | .rowRec r => some r

/-- The spec's reference for the streaming export (§8 property 6):
repeatedly call `execute` in row mode with increasing pages, concatenating
the returned rows, until a page comes back with `has_more` false. Same fuel
convention as `csvLoop`. -/
def repeatExecuteRows (exec : Nat → Except QErr QueryResult) :
    Nat → Nat → List Row
  | 0, _ => []
  | fuel + 1, page =>
    match exec page with
    | .error _ => []
    | .ok result =>
      result.rows ++
        (if result.has_more then repeatExecuteRows exec fuel (page + 1) else [])

/-! ## The exceptions module and the query service's imports

`app/services/exceptions.py` (lines 1-42) binds exactly these names;
`query_service.py` (lines 52-58) runs
`from app.services.exceptions import BadQuery, DisallowedQuery,
QueryNotFound, QueryTimeout, WorkspaceForbidden`. A Python from-import of a
name the module does not bind raises `ImportError` when the importing module
is loaded. -/

/-- The top-level class names `app/services/exceptions.py` defines. -/
def exceptionsModuleNames : List String :=
  ["NotFoundException", "ForbiddenException", "BadRequestException",
   "WorkspaceNotFound", "WorkspaceForbidden", "WorkspaceQuotaExceeded",
   "FileTypeNotAllowed", "FileTooLarge", "WorkspaceOrphanModification",
   "WorkspaceAlreadyClaimed", "BadQuery", "DisallowedQuery"]

/-- The names `query_service.py` imports from `app.services.exceptions`
(its lines 52-58). -/
def queryServiceExceptionImports : List String :=
  ["BadQuery", "DisallowedQuery", "QueryNotFound", "QueryTimeout",
   "WorkspaceForbidden"]

/-- Whether the from-import of query_service.py resolves: every imported
name must be bound by the exceptions module, else loading
`app.services.query_service` raises `ImportError` before any query runs. -/
def queryServiceImportResolves : Bool :=
  queryServiceExceptionImports.all fun n =>
    exceptionsModuleNames.contains n

/-! ## The unresolved table references of a query

`unknownsSelect` lists, in the order the validation walk meets them, the
names of the table references that resolve neither to a visible CTE nor to
a registered file. The walk of `validateMapSelect` fails exactly on the
first of them (proved below). -/

/-- The names a `WITH` list introduces, in order. -/
def cteNames : CteList → List String
  | .nil => []
  | .cons n _ rest => n :: cteNames rest

mutual
/-- Unresolved table references of a select, visitation order. -/
def unknownsSelect (files : List File) (env : List String) :
    SelectQ → List String
  | .mk _ ctes srcs _ _ =>
    let p := unknownsCtes files env ctes
    p.1 ++ unknownsSrcs files p.2 srcs

/-- Unresolved references of the CTE bodies, plus the environment the main
sources see. -/
def unknownsCtes (files : List File) (env : List String) :
    CteList → List String × List String
  | .nil => ([], env)
  | .cons n body rest =>
    let u := unknownsSelect files env body
    let p := unknownsCtes files (env ++ [n]) rest
    (u ++ p.1, p.2)

/-- Unresolved references of a source list. -/
def unknownsSrcs (files : List File) (env : List String) :
    SrcList → List String
  | .nil => []
  | .cons src rest => unknownsSrc files env src ++ unknownsSrcs files env rest

/-- Unresolved references of one source. -/
def unknownsSrc (files : List File) (env : List String) : Src → List String
  | .table n _ =>
    if n ∈ env then [] else if (tablesMapLookup files n).isSome then [] else [n]
  | .readCsv _ _ => if (tablesMapLookup files "").isSome then [] else [""]
  | .sub body _ => unknownsSelect files env body
end

/-- Unresolved references of a parsed expression: non-query statements have
no scopes and hence no table references. -/
def unknownsExpr (files : List File) : Expression → List String
  | .query q => unknownsSelect files [] q
  | .stmt _ => []

/-! ## Concrete instances used by counterexamples and witnesses -/

/-- Default settings: page size 50, bucket `deita-files`. -/
def defaultSettings : Settings := {}

/-- A registered file named `sales`, split on `;`, quoted with `"`. -/
def salesFile : File :=
  { table_name := "sales", storage_path := "ws1/sales.csv",
    delimiter := some ";", quotechar := some "\"" }

/-- The s3 URL the rewriter produces for `salesFile`. -/
def salesPath : String := (getReadCsvCallsForFile defaultSettings salesFile).path

/-- A store giving the `sales` object `k` rows `[i, "x"]` and two columns. -/
def salesStore (k : Nat) : Store :=
  { cols := fun p => if p = salesPath then ["a", "b"] else [],
    rows := fun p =>
      if p = salesPath then (List.range k).map (fun i => [Val.int i, Val.str "x"])
      else [] }

/-- `SELECT * FROM sales` (optionally `AS a`), as parsed. -/
def selSales (a : String) : SqlText :=
  .wellFormed (.query (.mk .star .nil (.cons (.table "sales" a) .nil) none none))

/-! ## Validation walk: first-unknown characterisation -/

/-- The 120-row pagination scenario of the spec (§8 property 4): the row
count and has-more flag `execute_query` returns for a page of the 120-row
`sales` object with `page_size = 50`. -/
def paginationScenario (page : Int) : Option (Nat × Bool) :=
  (executeQuery defaultSettings (runEngine (salesStore 120)) (selSales "")
    [salesFile] (some page) (some 50) false).toOption.map fun r =>
      (r.rows.length, r.has_more)

/-- A store giving the `sales` object `k` identical rows and two columns,
for the streaming-export scenarios. -/
def repStore (k : Nat) : Store :=
  { cols := fun p => if p = salesPath then ["a", "b"] else [],
    rows := fun p => if p = salesPath then List.replicate k [Val.int 0, Val.str "x"]
      else [] }

/-- The first-unknown specification of the validation walk: an empty
unknown-reference list means the walk succeeds; otherwise it fails with the
`BadQuery` message of the first unknown reference. -/
def VMSpec {α : Type} : List String → Except QErr α → Prop
  | [], r => ∃ x, r = .ok x
  | n :: _, r => r = .error (.badQuery (unknownTableMsg n))

/-- `VMSpec` for the CTE walk, whose success value also carries the
environment `snd` the main sources see. -/
def VMSpecC (snd : List String) :
    List String → Except QErr (CteList × List String) → Prop
  | [], r => ∃ cs', r = .ok (cs', snd)
  | n :: _, r => r = .error (.badQuery (unknownTableMsg n))

theorem srcExprType_not_disallowed (env : List String) (src : Src) :
    srcExprType env src ∉ disallowedExpressions := by
  cases src with
  | table n a =>
    by_cases h : n ∈ env <;> simp [srcExprType, h] <;> decide
  | readCsv c a => simp [srcExprType]; decide
  | sub b a => simp [srcExprType]; decide

theorem except_bind_error {α β : Type} (e : QErr) (k : α → Except QErr β) :
    (Except.error e >>= k) = Except.error e := rfl

theorem except_bind_ok {α β : Type} (x : α) (k : α → Except QErr β) :
    (Except.ok x >>= k) = k x := rfl

theorem except_pure_eq_ok {α : Type} (x : α) :
    (pure x : Except QErr α) = Except.ok x := rfl

theorem except_throw_eq_error {α : Type} (e : QErr) :
    (throw e : Except QErr α) = Except.error e := rfl

mutual
theorem vmSelect_spec (s : Settings) (files : List File) :
    (q : SelectQ) → (env : List String) →
    VMSpec (unknownsSelect files env q) (validateMapSelect s files env q)
  | .mk proj ctes srcs lim off, env => by
    have hc := vmCtes_spec s files ctes env
    simp only [unknownsSelect, validateMapSelect]
    cases hu : (unknownsCtes files env ctes).1 with
    | cons n rest =>
      rw [hu] at hc
      simp only [VMSpecC] at hc
      simp [VMSpec, hc, except_bind_error]
    | nil =>
      rw [hu] at hc
      simp only [VMSpecC] at hc
      obtain ⟨cs', hcs⟩ := hc
      have hs2 := vmSrcs_spec s files srcs ((unknownsCtes files env ctes).2)
      simp only [hcs, List.nil_append, except_bind_ok]
      cases hu2 : unknownsSrcs files ((unknownsCtes files env ctes).2) srcs with
      | nil =>
        rw [hu2] at hs2
        simp only [VMSpec] at hs2 ⊢
        obtain ⟨srcs', hsrcs⟩ := hs2
        exact ⟨_, by simp only [hsrcs, except_bind_ok, except_pure_eq_ok]; rfl⟩
      | cons n rest =>
        rw [hu2] at hs2
        simp only [VMSpec] at hs2 ⊢
        simp [hs2, except_bind_error]

theorem vmCtes_spec (s : Settings) (files : List File) :
    (cs : CteList) → (env : List String) →
    VMSpecC (unknownsCtes files env cs).2 (unknownsCtes files env cs).1
      (validateMapCtes s files env cs)
  | .nil, env => by
    simp only [VMSpecC, unknownsCtes, validateMapCtes]
    exact ⟨_, rfl⟩
  | .cons n body rest, env => by
    have hb := vmSelect_spec s files body env
    have hr := vmCtes_spec s files rest (env ++ [n])
    simp only [unknownsCtes, validateMapCtes]
    cases hub : unknownsSelect files env body with
    | cons m ms =>
      rw [hub] at hb
      simp only [VMSpec] at hb
      simp only [List.cons_append, VMSpecC]
      simp [hb, except_bind_error]
    | nil =>
      rw [hub] at hb
      simp only [VMSpec] at hb
      obtain ⟨body', hbody⟩ := hb
      simp only [hbody, List.nil_append, except_bind_ok]
      cases hur : (unknownsCtes files (env ++ [n]) rest).1 with
      | cons m ms =>
        rw [hur] at hr
        simp only [VMSpecC] at hr
        simp [VMSpecC, hr, except_bind_error]
      | nil =>
        rw [hur] at hr
        simp only [VMSpecC] at hr
        obtain ⟨rest', hrest⟩ := hr
        simp only [VMSpecC]
        exact ⟨_, by simp only [hrest, except_bind_ok, except_pure_eq_ok]; rfl⟩

theorem vmSrcs_spec (s : Settings) (files : List File) :
    (ss : SrcList) → (env : List String) →
    VMSpec (unknownsSrcs files env ss) (validateMapSrcs s files env ss)
  | .nil, env => by
    simp only [VMSpec, unknownsSrcs, validateMapSrcs]
    exact ⟨_, rfl⟩
  | .cons src rest, env => by
    have h1 := vmSrc_spec s files src env
    have h2 := vmSrcs_spec s files rest env
    simp only [unknownsSrcs, validateMapSrcs]
    cases hu1 : unknownsSrc files env src with
    | cons m ms =>
      rw [hu1] at h1
      simp only [VMSpec] at h1
      simp [VMSpec, h1, except_bind_error]
    | nil =>
      rw [hu1] at h1
      simp only [VMSpec] at h1
      obtain ⟨src', hsrc⟩ := h1
      simp only [hsrc, List.nil_append, except_bind_ok]
      cases hu2 : unknownsSrcs files env rest with
      | cons m ms =>
        rw [hu2] at h2
        simp only [VMSpec] at h2 ⊢
        simp [h2, except_bind_error]
      | nil =>
        rw [hu2] at h2
        simp only [VMSpec] at h2 ⊢
        obtain ⟨rest', hrest⟩ := h2
        exact ⟨_, by simp only [hrest, except_bind_ok, except_pure_eq_ok]; rfl⟩

theorem vmSrc_spec (s : Settings) (files : List File) :
    (src : Src) → (env : List String) →
    VMSpec (unknownsSrc files env src) (validateMapSrc s files env src)
  | .table n a, env => by
    have hd := srcExprType_not_disallowed env (.table n a)
    simp only [unknownsSrc, validateMapSrc, if_neg hd]
    by_cases he : n ∈ env
    · simp only [he, if_true, VMSpec]
      exact ⟨_, rfl⟩
    · simp only [he, if_false]
      cases hl : tablesMapLookup files n with
      | some f =>
        simp only [hl, Option.isSome_some, if_true, VMSpec]
        exact ⟨_, rfl⟩
      | none =>
        simp only [hl, Option.isSome_none, Bool.false_eq_true, if_false, VMSpec]
        rfl
  | .readCsv c a, env => by
    have hd := srcExprType_not_disallowed env (.readCsv c a)
    simp only [unknownsSrc, validateMapSrc, if_neg hd]
    cases hl : tablesMapLookup files "" with
    | some f =>
      simp only [hl, Option.isSome_some, if_true, VMSpec]
      exact ⟨_, rfl⟩
    | none =>
      simp only [hl, Option.isSome_none, Bool.false_eq_true, if_false, VMSpec]
      rfl
  | .sub body a, env => by
    have hb := vmSelect_spec s files body env
    have hd := srcExprType_not_disallowed env (.sub body a)
    simp only [unknownsSrc, validateMapSrc, if_neg hd]
    cases hub : unknownsSelect files env body with
    | cons m ms =>
      rw [hub] at hb
      simp only [VMSpec] at hb ⊢
      simp [hb, except_bind_error]
    | nil =>
      rw [hub] at hb
      simp only [VMSpec] at hb ⊢
      obtain ⟨body', hbody⟩ := hb
      exact ⟨_, by simp only [hbody, except_bind_ok, except_pure_eq_ok]; rfl⟩
end

/-! ## Unknown references are unregistered; claims C1, C9, C2 -/

mutual
theorem unknownsSelect_not_registered (files : List File) :
    (q : SelectQ) → (env : List String) → ∀ n, n ∈ unknownsSelect files env q →
      tablesMapLookup files n = none
  | .mk proj ctes srcs lim off, env => by
    intro n hn
    simp only [unknownsSelect, List.mem_append] at hn
    rcases hn with h | h
    · exact unknownsCtes_not_registered files ctes env n h
    · exact unknownsSrcs_not_registered files srcs _ n h

theorem unknownsCtes_not_registered (files : List File) :
    (cs : CteList) → (env : List String) → ∀ n, n ∈ (unknownsCtes files env cs).1 →
      tablesMapLookup files n = none
  | .nil, env => by
    intro n hn
    simp [unknownsCtes] at hn
  | .cons m body rest, env => by
    intro n hn
    simp only [unknownsCtes, List.mem_append] at hn
    rcases hn with h | h
    · exact unknownsSelect_not_registered files body env n h
    · exact unknownsCtes_not_registered files rest (env ++ [m]) n h

theorem unknownsSrcs_not_registered (files : List File) :
    (ss : SrcList) → (env : List String) → ∀ n, n ∈ unknownsSrcs files env ss →
      tablesMapLookup files n = none
  | .nil, env => by
    intro n hn
    simp [unknownsSrcs] at hn
  | .cons src rest, env => by
    intro n hn
    simp only [unknownsSrcs, List.mem_append] at hn
    rcases hn with h | h
    · exact unknownsSrc_not_registered files src env n h
    · exact unknownsSrcs_not_registered files rest env n h

theorem unknownsSrc_not_registered (files : List File) :
    (src : Src) → (env : List String) → ∀ n, n ∈ unknownsSrc files env src →
      tablesMapLookup files n = none
  | .table m a, env => by
    intro n hn
    simp only [unknownsSrc] at hn
    split at hn
    · simp at hn
    · split at hn
      · simp at hn
      · next hsome =>
        simp only [List.mem_singleton] at hn
        subst hn
        exact Option.not_isSome_iff_eq_none.mp (by simpa using hsome)
  | .readCsv c a, env => by
    intro n hn
    simp only [unknownsSrc] at hn
    split at hn
    · simp at hn
    · next hsome =>
      simp only [List.mem_singleton] at hn
      subst hn
      exact Option.not_isSome_iff_eq_none.mp (by simpa using hsome)
  | .sub body a, env => by
    intro n hn
    simp only [unknownsSrc] at hn
    exact unknownsSelect_not_registered files body env n hn
end

/-- C1 evaluation: a top-level `COMMIT` — a transaction-control statement of
the reject set — is rejected by `validate_query` and `execute_query` with
`BadQuery("Unable to build scope for the query.")`, a different error kind
than the `DisallowedQuery` the spec promises: `build_scope` returns `None`
on a non-query statement before the disallowed-class check can run. -/
theorem commit_rejected_as_badQuery_not_disallowedQuery :
    ∀ (s : Settings) (files : List File) (engine : Engine) (page size : Option Int),
      validateQuery s (.wellFormed (.stmt .commit)) files =
        .error (.badQuery "Unable to build scope for the query.") ∧
      executeQuery s engine (.wellFormed (.stmt .commit)) files page size false =
        .error (.badQuery "Unable to build scope for the query.") ∧
      (∀ m : String,
        QErr.badQuery "Unable to build scope for the query." ≠ .disallowedQuery m) := by
  intro s files engine page size
  exact ⟨rfl, rfl, fun m h => QErr.noConfusion h⟩

/-- C9 evaluation: `query_service.py` imports `QueryTimeout` (and
`QueryNotFound`) from `app.services.exceptions`, but the exceptions module
defines neither name, so importing the query service raises `ImportError`
and no `QueryTimeout` exception class exists anywhere to be raised. -/
theorem queryTimeout_class_missing :
    queryServiceImportResolves = false ∧
    "QueryTimeout" ∈ queryServiceExceptionImports ∧
    "QueryTimeout" ∉ exceptionsModuleNames ∧
    "QueryNotFound" ∉ exceptionsModuleNames := by
  decide

/-- C2: a query referencing a table that is registered to no file of the
workspace — `n` is the first such reference the validation walk meets —
fails `validate_query` with
`BadQuery("Table '<n>' does not exist in the workspace.")`, and
`execute_query` fails identically for every engine, page, size and count
flag, so no execution takes place. -/
theorem unknown_table_fails_validate_and_execute
    (s : Settings) (files : List File) (text : SqlText) (e : Expression) (n : String)
    (hparse : parseOne text = .ok e)
    (hn : (unknownsExpr files e).head? = some n) :
    tablesMapLookup files n = none ∧
    validateQuery s text files = .error (.badQuery (unknownTableMsg n)) ∧
    ∀ (engine : Engine) (page size : Option Int) (count : Bool),
      executeQuery s engine text files page size count =
        .error (.badQuery (unknownTableMsg n)) := by
  cases text with
  | malformed d => exact absurd hparse (by simp [parseOne])
  | wellFormed e' =>
    have he : e' = e := by simpa [parseOne] using hparse
    subst he
    cases e' with
    | stmt t => simp [unknownsExpr] at hn
    | query q =>
      simp only [unknownsExpr] at hn
      obtain ⟨rest, hrest⟩ : ∃ rest, unknownsSelect files [] q = n :: rest := by
        cases hu : unknownsSelect files [] q with
        | nil => rw [hu] at hn; simp at hn
        | cons m ms =>
          rw [hu] at hn
          simp only [List.head?_cons, Option.some.injEq] at hn
          exact ⟨ms, by rw [hn]⟩
      have hvm := vmSelect_spec s files q []
      rw [hrest] at hvm
      simp only [VMSpec] at hvm
      have hreg : tablesMapLookup files n = none :=
        unknownsSelect_not_registered files q [] n (by rw [hrest]; exact List.mem_cons_self n rest)
      refine ⟨hreg, ?_, ?_⟩
      · simp [validateQuery, parseOne, validateQueryAndMapTables, hvm, Except.map]
      · intro engine page size count
        cases count with
        | false =>
          simp [executeQuery, preparedStatement, parseOne,
            validateQueryAndMapTables, hvm, Except.map]
        | true =>
          have hwrap : unknownsSelect files []
              (.mk .countStar .nil (.cons (.sub q "q") .nil) none none) =
              n :: rest := by
            simp [unknownsSelect, unknownsCtes, unknownsSrcs, unknownsSrc, hrest]
          have hvm2 := vmSelect_spec s files
            (.mk .countStar .nil (.cons (.sub q "q") .nil) none none) []
          rw [hwrap] at hvm2
          simp only [VMSpec] at hvm2
          simp [executeQuery, preparedStatement, countWrap, parseOne,
            validateQueryAndMapTables, hvm2, Except.map]

/-- C2 witness: `SELECT * FROM sales` against an empty file list. -/
theorem unknown_table_fails_witness :
    tablesMapLookup [] "sales" = none ∧
    validateQuery defaultSettings (selSales "") [] =
      .error (.badQuery (unknownTableMsg "sales")) ∧
    ∀ (engine : Engine) (page size : Option Int) (count : Bool),
      executeQuery defaultSettings engine (selSales "") [] page size count =
        .error (.badQuery (unknownTableMsg "sales")) :=
  unknown_table_fails_validate_and_execute defaultSettings [] (selSales "") _ "sales"
    rfl (by simp [unknownsExpr, selSales, unknownsSelect, unknownsCtes,
      unknownsSrcs, unknownsSrc, tablesMapLookup])

/-! ## Pagination: claims C3 and C4 -/

/-- Row-mode execution of `SELECT * FROM n [AS a]` over a registered file:
the engine fetch is `LIMIT size+1 OFFSET (p-1)*size` over the object's rows
and the result is trimmed back to `size`. -/
theorem executeQuery_simple_select (s : Settings) (st : Store) (files : List File)
    (f : File) (n a : String) (hf : tablesMapLookup files n = some f)
    (p size : Int) (hp : 0 ≤ p - 1) (hsize : 0 ≤ size) :
    executeQuery s (runEngine st)
      (.wellFormed (.query (.mk .star .nil (.cons (.table n a) .nil) none none)))
      files (some p) (some size) false =
    .ok { columns := st.cols (getReadCsvCallsForFile s f).path,
          rows := (((st.rows (getReadCsvCallsForFile s f).path).drop
              ((p - 1) * size).toNat).take (size + 1).toNat).take size.toNat,
          has_more := decide
            (((((st.rows (getReadCsvCallsForFile s f).path).drop
              ((p - 1) * size).toNat).take (size + 1).toNat).length : Int) > size) } := by
  have hd := srcExprType_not_disallowed [] (.table n a)
  have hoff : ¬ ((p - 1) * size < 0) := by
    push_neg
    exact mul_nonneg hp hsize
  have hlim : ¬ (size + 1 < 0) := by omega
  simp [executeQuery, preparedStatement, parseOne, validateQueryAndMapTables,
    validateMapSelect, validateMapCtes, validateMapSrcs, validateMapSrc,
    if_neg hd, hf, addLimit, runEngine, evalSelect, evalCtes, evalSrcs, evalSrc,
    applyProj, applyLimits, hoff, hlim, except_bind_ok, except_pure_eq_ok,
    Except.map, bind, Except.bind, pure, Except.pure]

/-- C3: in row mode the statement handed to the engine is the rewritten
statement with `LIMIT size+1` and `OFFSET (page-1)*size` appended; on the
120-row `sales` object with `page_size = 50`, page 1 returns 50 rows with
`has_more`, page 3 returns 20 rows without, page 4 returns 0 rows
without. -/
theorem row_mode_limit_offset_and_pagination :
    (∀ (s : Settings) (text : SqlText) (files : List File) (p size : Int)
        (e e' : Expression),
        parseOne text = .ok e →
        validateQueryAndMapTables s e files = .ok e' →
        preparedStatement s text files (some p) (some size) false =
          .ok (addLimit e' p size)) ∧
    (∀ (proj : Proj) (ctes : CteList) (srcs : SrcList) (lim off : Option Int)
        (p size : Int),
        addLimit (.query (.mk proj ctes srcs lim off)) p size =
          .query (.mk proj ctes srcs (some (size + 1)) (some ((p - 1) * size)))) ∧
    paginationScenario 1 = some (50, true) ∧
    paginationScenario 3 = some (20, false) ∧
    paginationScenario 4 = some (0, false) := by
  refine ⟨?_, ?_, by decide, by decide, by decide⟩
  · intro s text files p size e e' hparse hval
    simp [preparedStatement, hparse, hval]
  · intro proj ctes srcs lim off p size
    rfl

/-- C4 counterexample: with `page = None` — allowed by `execute_query`'s
signature and used by no-limit callers — the fetched rows are returned
untrimmed: a 2-row object with `size = 1` yields a `QueryResult` with 2
rows, violating `len(rows) <= requested page_size`. -/
theorem rows_exceed_size_when_page_none :
    (executeQuery defaultSettings (runEngine (salesStore 2)) (selSales "")
      [salesFile] none (some 1) false).toOption.map
        (fun r => (r.rows.length, decide (r.rows.length ≤ 1), r.has_more)) =
      some (2, false, true) := by decide

/-- C4 (amended): in row mode (count off, page supplied) the returned rows
are the fetch truncated to `size`, so `len(rows) ≤ size`; and in every mode
`has_more` is true iff the fetch had strictly more than `size` rows. The
closing conjunct exercises the row-mode bound on a concrete input. -/
theorem result_rows_bounded_and_has_more_iff :
    (∀ (s : Settings) (engine : Engine) (text : SqlText) (files : List File)
        (p size : Int) (e' : Expression) (res : EngineResult),
        0 ≤ size →
        preparedStatement s text files (some p) (some size) false = .ok e' →
        engine e' = .ok res →
        ∃ out, executeQuery s engine text files (some p) (some size) false = .ok out ∧
          out.rows = res.rows.take size.toNat ∧
          out.rows.length ≤ size.toNat ∧
          (out.has_more = true ↔ (size : Int) < res.rows.length)) ∧
    (∀ (s : Settings) (engine : Engine) (text : SqlText) (files : List File)
        (page size : Option Int) (count : Bool) (e' : Expression)
        (res : EngineResult) (out : QueryResult),
        preparedStatement s text files page size count = .ok e' →
        engine e' = .ok res →
        executeQuery s engine text files page size count = .ok out →
        (out.has_more = true ↔ (size.getD s.duckdb_page_size : Int) < res.rows.length)) ∧
    (executeQuery defaultSettings (runEngine (salesStore 2)) (selSales "")
      [salesFile] (some 1) (some 1) false).toOption.map
        (fun r => (r.rows.length, r.has_more)) = some (1, true) := by
  refine ⟨?_, ?_, by decide⟩
  · intro s engine text files p size e' res hsize hprep hengine
    have hout : executeQuery s engine text files (some p) (some size) false =
        .ok { columns := res.columns, rows := res.rows.take size.toNat,
              time := 0, has_more := decide ((size : Int) < res.rows.length) } := by
      simp [executeQuery, hprep, hengine]
    refine ⟨_, hout, rfl, ?_, ?_⟩
    · simp
    · simp
  · intro s engine text files page size count e' res out hprep hengine hout
    have : executeQuery s engine text files page size count =
        .ok { columns := res.columns,
              rows := if !count && page.isSome then
                  res.rows.take (size.getD s.duckdb_page_size).toNat
                else res.rows,
              has_more := decide
                ((res.rows.length : Int) > size.getD s.duckdb_page_size) } := by
      simp [executeQuery, hprep, hengine]
    rw [hout] at this
    have hmore := congrArg QueryResult.has_more (Except.ok.inj this)
    simp only [hmore]
    simp

/-! ## Count mode and the table rewriter: claims C5 and C6 -/

set_option maxRecDepth 4000 in
/-- C5: count mode wraps the whole statement as the derived table `q` of
`SELECT COUNT(*) AS count FROM (…) q`, injects no limit or offset, and
returns exactly one row and one column holding the total row count,
whatever `page` and `size` are. The closing conjuncts run the 120-row
object under two different page/size combinations. -/
theorem count_mode_wraps_and_counts :
    (∀ (q : SelectQ),
        countWrap (.wellFormed (.query q)) =
          .wellFormed (.query
            (.mk .countStar .nil (.cons (.sub q "q") .nil) none none))) ∧
    (∀ (s : Settings) (text : SqlText) (files : List File)
        (page size : Option Int) (e e' : Expression),
        parseOne (countWrap text) = .ok e →
        validateQueryAndMapTables s e files = .ok e' →
        preparedStatement s text files page size true = .ok e') ∧
    (∀ (s : Settings) (st : Store) (files : List File) (f : File)
        (n a : String) (page size : Option Int),
        tablesMapLookup files n = some f →
        executeQuery s (runEngine st)
          (.wellFormed (.query (.mk .star .nil (.cons (.table n a) .nil) none none)))
          files page size true =
        .ok { columns := ["count"],
              rows := [[Val.int (st.rows (getReadCsvCallsForFile s f).path).length]],
              time := 0,
              has_more := decide ((1 : Int) > size.getD s.duckdb_page_size) }) ∧
    ((executeQuery defaultSettings (runEngine (salesStore 120)) (selSales "")
        [salesFile] (some 7) (some 3) true).toOption.map
          (fun r => (r.columns, r.rows)) = some (["count"], [[Val.int 120]])) ∧
    ((executeQuery defaultSettings (runEngine (salesStore 120)) (selSales "")
        [salesFile] none (some 1) true).toOption.map
          (fun r => (r.columns, r.rows)) = some (["count"], [[Val.int 120]])) := by
  refine ⟨fun q => rfl, ?_, ?_, by decide, by decide⟩
  · intro s text files page size e e' hparse hval
    simp [preparedStatement, hparse, hval]
  · intro s st files f n a page size hf
    have hd := srcExprType_not_disallowed [] (.table n a)
    have hd2 := srcExprType_not_disallowed []
      (.sub (.mk .star .nil (.cons (.table n a) .nil) none none) "q")
    simp [executeQuery, preparedStatement, countWrap, parseOne,
      validateQueryAndMapTables, validateMapSelect, validateMapCtes,
      validateMapSrcs, validateMapSrc, if_neg hd, if_neg hd2, hf, runEngine,
      evalSelect, evalCtes, evalSrcs, evalSrc, applyProj, applyLimits,
      except_bind_ok, except_pure_eq_ok, Except.map, bind, Except.bind,
      pure, Except.pure]

/-- C6: a registered table reference is replaced by the `read_csv` call of
its file — carrying the file's delimiter and quote options when set — with
the replacement's alias the user's alias when given and the logical table
name otherwise; a column reference qualified by that name still resolves
after substitution, and the spec's `SELECT t.a FROM sales AS t` example
succeeds returning column `a`. -/
theorem table_rewrite_preserves_alias :
    (∀ (s : Settings) (files : List File) (f : File) (n a : String)
        (proj : Proj) (lim off : Option Int),
        tablesMapLookup files n = some f →
        validateMapSelect s files [] (.mk proj .nil (.cons (.table n a) .nil) lim off) =
          .ok (.mk proj .nil
            (.cons (.readCsv (getReadCsvCallsForFile s f)
              (if a = "" then n else a)) .nil) lim off)) ∧
    (∀ (s : Settings) (f : File), truthy f.delimiter →
        (getReadCsvCallsForFile s f).delim = f.delimiter) ∧
    (∀ (s : Settings) (f : File), truthy f.quotechar →
        (getReadCsvCallsForFile s f).quote = f.quotechar) ∧
    (∀ (s : Settings) (st : Store) (files : List File) (f : File)
        (n a c : String) (i : Nat) (p size : Int),
        tablesMapLookup files n = some f → 0 ≤ p - 1 → 0 ≤ size →
        (st.cols (getReadCsvCallsForFile s f).path).findIdx? (· = c) = some i →
        (executeQuery s (runEngine st)
            (.wellFormed (.query (.mk (.col (if a = "" then n else a) c) .nil
              (.cons (.table n a) .nil) none none)))
            files (some p) (some size) false).toOption.map
          (fun out => out.columns) = some [c]) ∧
    ((executeQuery defaultSettings (runEngine (salesStore 3))
        (.wellFormed (.query (.mk (.col "t" "a") .nil
          (.cons (.table "sales" "t") .nil) none none)))
        [salesFile] (some 1) (some 50) false).toOption.map
          (fun r => (r.columns, r.rows.length)) = some (["a"], 3)) := by
  refine ⟨?_, ?_, ?_, ?_, by decide⟩
  · intro s files f n a proj lim off hf
    have hd := srcExprType_not_disallowed [] (.table n a)
    simp [validateMapSelect, validateMapCtes, validateMapSrcs, validateMapSrc,
      if_neg hd, hf, except_bind_ok, except_pure_eq_ok, bind, Except.bind,
      pure, Except.pure]
  · intro s f h
    simp [getReadCsvCallsForFile, h]
  · intro s f h
    simp [getReadCsvCallsForFile, h]
  · intro s st files f n a c i p size hf hp hsize hcol
    have hd := srcExprType_not_disallowed [] (.table n a)
    have hoff : ¬ ((p - 1) * size < 0) := by
      push_neg
      exact mul_nonneg hp hsize
    have hlim : ¬ (size + 1 < 0) := by omega
    simp [executeQuery, preparedStatement, parseOne, validateQueryAndMapTables,
      validateMapSelect, validateMapCtes, validateMapSrcs, validateMapSrc,
      if_neg hd, hf, addLimit, runEngine, evalSelect, evalCtes, evalSrcs,
      evalSrc, applyProj, applyLimits, hoff, hlim, hcol, except_bind_ok,
      except_pure_eq_ok, Except.map, bind, Except.bind, pure, Except.pure,
      Except.toOption]

/-! ## Streaming CSV export: claim C7 -/

theorem emitRows_fst_flatten (rows : List Row) : ∀ buf : Chunk,
    (emitRows buf rows).1.flatten =
      if rows.isEmpty then [] else buf ++ rows.map CsvRec.rowRec := by
  induction rows with
  | nil => intro buf; simp [emitRows]
  | cons r rs ih =>
    intro buf
    simp only [emitRows, List.flatten_cons, ih []]
    cases rs <;> simp

theorem emitRows_snd (rows : List Row) (buf : Chunk) :
    (emitRows buf rows).2 = if rows.isEmpty then buf else [] := by
  cases rows with
  | nil => simp [emitRows]
  | cons r rs =>
    simp only [emitRows]
    induction rs with
    | nil => simp [emitRows]
    | cons r' rs' ih => simpa [emitRows] using ih

theorem headerCount_append (a b : List Chunk) :
    headerCount (a ++ b) = headerCount a + headerCount b := by
  simp [headerCount]

theorem headerCount_emitRows (rows : List Row) (buf : Chunk) :
    headerCount (emitRows buf rows).1 =
      if rows.isEmpty then 0 else headerCount [buf] := by
  simp only [headerCount, emitRows_fst_flatten]
  cases rows <;> simp

theorem tablesMapLookup_sales : tablesMapLookup [salesFile] "sales" = some salesFile := by
  simp [tablesMapLookup, salesFile]

theorem repStore_exec (k : Nat) (p : Int) (hp : 0 ≤ p - 1) :
    executeQuery defaultSettings (runEngine (repStore k)) (selSales "")
      [salesFile] (some p) (some 100000) false =
    .ok { columns := ["a", "b"],
          rows := List.replicate (min 100000 (min 100001 (k - ((p - 1) * 100000).toNat)))
            [Val.int 0, Val.str "x"],
          has_more := decide
            ((100000 : Int) < (min 100001 (k - ((p - 1) * 100000).toNat) : Nat)) } := by
  have h := executeQuery_simple_select defaultSettings (repStore k) [salesFile]
    salesFile "sales" "" tablesMapLookup_sales p 100000 hp (by norm_num)
  rw [selSales]
  rw [h]
  have hpath : (getReadCsvCallsForFile defaultSettings salesFile).path = salesPath := rfl
  simp only [hpath, repStore, if_pos rfl]
  have h1 : ((100000 : Int) + 1).toNat = 100001 := rfl
  simp [h1, List.drop_replicate, List.take_replicate, Nat.min_comm]

end Deita

namespace Deita

theorem csvLoop_succ (exec : Nat → Except QErr QueryResult) (fuel page : Nat)
    (hs : Bool) (buf : Chunk) :
    csvLoop exec (fuel + 1) page hs buf =
      match exec page with
      | .error _ => []
      | .ok result =>
        let buf := if !hs then buf ++ [.headerRec result.columns] else buf
        let p := emitRows buf result.rows
        if result.has_more then
          p.1 ++ csvLoop exec fuel (page + 1) hs p.2
        else
          p.1 := by
  rw [csvLoop]

/-- C7 evaluation: on a 100001-row object the stream spans two pages
(`size=100000`) and the header record is emitted twice — `headers_set` is
never set to `True` (workspaces.py lines 126-131) — while a single-page
export emits it once. -/
theorem replicate_succ_isEmpty_false (n : Nat) (r : Row) :
    (List.replicate (n + 1) r).isEmpty = false := by
  rw [List.replicate_succ]
  rfl

theorem csv_export_header_repeats :
    headerCount (generateCsvStream defaultSettings (runEngine (repStore 100001))
      (selSales "") [salesFile] 2) = 2 ∧
    headerCount (generateCsvStream defaultSettings (runEngine (repStore 5))
      (selSales "") [salesFile] 2) = 1 := by
  have h1 := repStore_exec 100001 1 (by norm_num)
  have h2 := repStore_exec 100001 2 (by norm_num)
  have h3 := repStore_exec 5 1 (by norm_num)
  norm_num at h1 h2 h3
  simp only [show Int.toNat 100000 = 100000 from rfl] at h2
  norm_num at h2
  have hne1 : (List.replicate 100000 ([Val.int 0, Val.str "x"] : Row)).isEmpty = false :=
    replicate_succ_isEmpty_false 99999 _
  have hne2 : (List.replicate 1 ([Val.int 0, Val.str "x"] : Row)).isEmpty = false :=
    replicate_succ_isEmpty_false 0 _
  have hne3 : (List.replicate 5 ([Val.int 0, Val.str "x"] : Row)).isEmpty = false :=
    replicate_succ_isEmpty_false 4 _
  constructor
  · show headerCount (csvLoop _ (1 + 1) 1 false []) = 2
    rw [csvLoop_succ]
    push_cast
    rw [h1]
    simp only [Bool.not_false, if_true, List.nil_append]
    rw [emitRows_snd]
    rw [hne1]
    simp only [Bool.false_eq_true, if_false]
    rw [headerCount_append, headerCount_emitRows, hne1]
    simp only [Bool.false_eq_true, if_false]
    rw [csvLoop_succ]
    push_cast
    rw [h2]
    decide
  · decide

/-! ## Streaming export vs repeated execute: claim C8 -/

theorem chunkRows_append (a b : List Chunk) :
    chunkRows (a ++ b) = chunkRows a ++ chunkRows b := by
  simp [chunkRows]

theorem chunkRows_single_append_header (buf : Chunk) (c : List String)
    (hbuf : chunkRows [buf] = []) :
    chunkRows [buf ++ [CsvRec.headerRec c]] = [] := by
  simp only [chunkRows, List.flatten] at hbuf ⊢
  simp only [List.append_nil] at hbuf ⊢
  simp [List.filterMap_append, hbuf]

theorem filterMap_rowRec (rs : List Row) :
    List.filterMap (fun rec => match rec with
      | CsvRec.headerRec _ => none
      | CsvRec.rowRec r => some r) (rs.map CsvRec.rowRec) = rs := by
  induction rs with
  | nil => rfl
  | cons x xs ih => simp [List.filterMap_cons, ih]

theorem chunkRows_emitRows (rows : List Row) (buf : Chunk)
    (hbuf : chunkRows [buf] = []) :
    chunkRows (emitRows buf rows).1 = rows := by
  simp only [chunkRows, List.flatten, List.append_nil] at hbuf ⊢
  rw [emitRows_fst_flatten]
  cases rows with
  | nil => simp
  | cons r rs =>
    simp only [List.isEmpty_cons, Bool.false_eq_true, if_false,
      List.filterMap_append, hbuf, List.nil_append]
    exact filterMap_rowRec (r :: rs)

theorem repeatExecuteRows_succ (exec : Nat → Except QErr QueryResult)
    (fuel page : Nat) :
    repeatExecuteRows exec (fuel + 1) page =
      match exec page with
      | .error _ => []
      | .ok result =>
        result.rows ++
          (if result.has_more then repeatExecuteRows exec fuel (page + 1) else []) := by
  rw [repeatExecuteRows]

/-- The rows of the streamed chunks are exactly the rows of the repeated
row-mode calls, page for page: headers never enter `chunkRows` and the
buffer only ever carries header records. -/
theorem chunkRows_csvLoop (exec : Nat → Except QErr QueryResult) :
    ∀ (fuel page : Nat) (hs : Bool) (buf : Chunk), chunkRows [buf] = [] →
      chunkRows (csvLoop exec fuel page hs buf) =
        repeatExecuteRows exec fuel page := by
  intro fuel
  induction fuel with
  | zero =>
    intro page hs buf hbuf
    rfl
  | succ m ih =>
    intro page hs buf hbuf
    rw [csvLoop_succ, repeatExecuteRows_succ]
    cases hres : exec page with
    | error e => rfl
    | ok result =>
      simp only []
      have hb1 : chunkRows
          [if (!hs) = true then buf ++ [CsvRec.headerRec result.columns] else buf] = [] := by
        split
        · exact chunkRows_single_append_header buf result.columns hbuf
        · exact hbuf
      have hsnd : chunkRows [(emitRows
          (if (!hs) = true then buf ++ [CsvRec.headerRec result.columns] else buf)
          result.rows).2] = [] := by
        rw [emitRows_snd]
        split
        · exact hb1
        · rfl
      cases hmore : result.has_more
      · simp only [Bool.false_eq_true, if_false, List.append_nil]
        exact chunkRows_emitRows result.rows _ hb1
      · simp only [if_true]
        rw [chunkRows_append, chunkRows_emitRows result.rows _ hb1,
          ih (page + 1) hs _ hsnd]



theorem executeQuery_simple_select_pageNat (s : Settings) (st : Store)
    (files : List File) (f : File) (n a : String)
    (hf : tablesMapLookup files n = some f) (pg : Nat) (hpg : 1 ≤ pg)
    (size : Int) (hsize : 0 ≤ size) :
    executeQuery s (runEngine st)
      (.wellFormed (.query (.mk .star .nil (.cons (.table n a) .nil) none none)))
      files (some (pg : Int)) (some size) false =
    .ok { columns := st.cols (getReadCsvCallsForFile s f).path,
          rows := (((st.rows (getReadCsvCallsForFile s f).path).drop
              ((pg - 1) * size.toNat)).take (size.toNat + 1)).take size.toNat,
          has_more := decide (size.toNat <
            (((st.rows (getReadCsvCallsForFile s f).path).drop
              ((pg - 1) * size.toNat)).take (size.toNat + 1)).length) } := by
  rw [executeQuery_simple_select s st files f n a hf (pg : Int) size (by omega) hsize]
  have hoff : (((pg : Int) - 1) * size).toNat = (pg - 1) * size.toNat := by
    have h1 : ((pg : Int) - 1) = ((pg - 1 : Nat) : Int) := by omega
    rw [h1]
    nth_rewrite 1 [← Int.toNat_of_nonneg hsize]
    rw [← Nat.cast_mul, Int.toNat_natCast]
  have hlim : ((size : Int) + 1).toNat = size.toNat + 1 := by omega
  rw [hoff, hlim]
  have hdec : decide (((((st.rows (getReadCsvCallsForFile s f).path).drop
        ((pg - 1) * size.toNat)).take (size.toNat + 1)).length : Int) > size) =
      decide (size.toNat <
        (((st.rows (getReadCsvCallsForFile s f).path).drop
          ((pg - 1) * size.toNat)).take (size.toNat + 1)).length) := by
    rw [decide_eq_decide]
    omega
  rw [hdec]

theorem repeatExecuteRows_drop (exec : Nat → Except QErr QueryResult)
    (R : List Row) (C : List String) (sizeN : Nat) (hsz : 1 ≤ sizeN)
    (hexec : ∀ pg, 1 ≤ pg → exec pg = .ok
      { columns := C,
        rows := ((R.drop ((pg - 1) * sizeN)).take (sizeN + 1)).take sizeN,
        time := 0,
        has_more := decide (sizeN <
          ((R.drop ((pg - 1) * sizeN)).take (sizeN + 1)).length) }) :
    ∀ (fuel pg : Nat), 1 ≤ pg →
      (R.drop ((pg - 1) * sizeN)).length ≤ fuel * sizeN →
      repeatExecuteRows exec fuel pg = R.drop ((pg - 1) * sizeN) := by
  intro fuel
  induction fuel with
  | zero =>
    intro pg hpg hlen
    have : R.drop ((pg - 1) * sizeN) = [] := by
      rw [← List.length_eq_zero]
      omega
    rw [this]
    rfl
  | succ m ih =>
    intro pg hpg hlen
    rw [repeatExecuteRows_succ, hexec pg hpg]
    simp only []
    by_cases hcase : (R.drop ((pg - 1) * sizeN)).length ≤ sizeN
    · have htake1 : (R.drop ((pg - 1) * sizeN)).take (sizeN + 1) =
          R.drop ((pg - 1) * sizeN) := List.take_of_length_le (by omega)
      have hm : decide (sizeN < (R.drop ((pg - 1) * sizeN)).length) = false := by
        simp only [decide_eq_false_iff_not]
        omega
      rw [htake1, hm]
      simp only [Bool.false_eq_true, if_false, List.append_nil]
      exact List.take_of_length_le hcase
    · push_neg at hcase
      have hlen1 : ((R.drop ((pg - 1) * sizeN)).take (sizeN + 1)).length = sizeN + 1 := by
        rw [List.length_take]
        omega
      have hm : decide (sizeN <
          ((R.drop ((pg - 1) * sizeN)).take (sizeN + 1)).length) = true := by
        rw [hlen1]
        simp only [decide_eq_true_eq]
        omega
      rw [hm]
      simp only [if_true]
      have htt : ((R.drop ((pg - 1) * sizeN)).take (sizeN + 1)).take sizeN =
          (R.drop ((pg - 1) * sizeN)).take sizeN := by
        rw [List.take_take]
        congr 1
        omega
      rw [htt]
      obtain ⟨k, rfl⟩ : ∃ k, pg = k + 1 := ⟨pg - 1, by omega⟩
      have hk1 : (k + 1) - 1 = k := by omega
      have hk2 : (k + 1 + 1) - 1 = k + 1 := by omega
      have hmul : (k + 1) * sizeN = k * sizeN + sizeN := Nat.succ_mul k sizeN
      rw [hk1] at hcase hlen ⊢
      rw [List.length_drop] at hcase hlen
      have hcond : (R.drop (((k + 1 + 1) - 1) * sizeN)).length ≤ m * sizeN := by
        rw [hk2, hmul, ← List.drop_drop, List.length_drop, List.length_drop]
        have hmul2 : (m + 1) * sizeN = m * sizeN + sizeN := Nat.succ_mul m sizeN
        rw [hmul2] at hlen
        omega
      rw [ih (k + 1 + 1) (by omega) hcond, hk2, hmul, ← List.drop_drop]
      exact List.take_append_drop sizeN (R.drop (k * sizeN))



/-- C8: for a `SELECT *` over a registered file, the data rows of all chunks
of the streaming export — in order — are exactly the object's rows, and
equal the concatenation of the rows of repeated row-mode `execute_query`
calls at any page size ≥ 1. Fuel bounds make each loop's page count
explicit. -/
theorem stream_rows_eq_repeated_execute_rows
    (s : Settings) (st : Store) (files : List File) (f : File) (n a : String)
    (size : Int) (fuel1 fuel2 : Nat)
    (hf : tablesMapLookup files n = some f)
    (hsize : 1 ≤ size)
    (h1 : (st.rows (getReadCsvCallsForFile s f).path).length ≤ fuel1 * 100000)
    (h2 : (st.rows (getReadCsvCallsForFile s f).path).length ≤ fuel2 * size.toNat) :
    chunkRows (generateCsvStream s (runEngine st)
        (.wellFormed (.query (.mk .star .nil (.cons (.table n a) .nil) none none)))
        files fuel1) =
      repeatExecuteRows (fun pg => executeQuery s (runEngine st)
        (.wellFormed (.query (.mk .star .nil (.cons (.table n a) .nil) none none)))
        files (some (pg : Int)) (some size) false) fuel2 1 ∧
    chunkRows (generateCsvStream s (runEngine st)
        (.wellFormed (.query (.mk .star .nil (.cons (.table n a) .nil) none none)))
        files fuel1) = st.rows (getReadCsvCallsForFile s f).path := by
  have hex1 : ∀ pg, 1 ≤ pg →
      (fun page => executeQuery s (runEngine st)
        (.wellFormed (.query (.mk .star .nil (.cons (.table n a) .nil) none none)))
        files (some ((page : Nat) : Int)) (some (100000 : Int)) false) pg = .ok
      { columns := st.cols (getReadCsvCallsForFile s f).path,
        rows := (((st.rows (getReadCsvCallsForFile s f).path).drop
            ((pg - 1) * (100000 : Int).toNat)).take ((100000 : Int).toNat + 1)).take
            (100000 : Int).toNat,
        time := 0,
        has_more := decide ((100000 : Int).toNat <
          (((st.rows (getReadCsvCallsForFile s f).path).drop
            ((pg - 1) * (100000 : Int).toNat)).take ((100000 : Int).toNat + 1)).length) } :=
    fun pg hpg => executeQuery_simple_select_pageNat s st files f n a hf pg hpg
      (100000 : Int) (by norm_num)
  have hex2 : ∀ pg, 1 ≤ pg →
      (fun page => executeQuery s (runEngine st)
        (.wellFormed (.query (.mk .star .nil (.cons (.table n a) .nil) none none)))
        files (some ((page : Nat) : Int)) (some size) false) pg = .ok
      { columns := st.cols (getReadCsvCallsForFile s f).path,
        rows := (((st.rows (getReadCsvCallsForFile s f).path).drop
            ((pg - 1) * size.toNat)).take (size.toNat + 1)).take size.toNat,
        time := 0,
        has_more := decide (size.toNat <
          (((st.rows (getReadCsvCallsForFile s f).path).drop
            ((pg - 1) * size.toNat)).take (size.toNat + 1)).length) } :=
    fun pg hpg => executeQuery_simple_select_pageNat s st files f n a hf pg hpg
      size (by omega)
  have hstream : chunkRows (generateCsvStream s (runEngine st)
      (.wellFormed (.query (.mk .star .nil (.cons (.table n a) .nil) none none)))
      files fuel1) = st.rows (getReadCsvCallsForFile s f).path := by
    rw [generateCsvStream, chunkRows_csvLoop _ fuel1 1 false [] rfl]
    have := repeatExecuteRows_drop _ (st.rows (getReadCsvCallsForFile s f).path)
      (st.cols (getReadCsvCallsForFile s f).path) (100000 : Int).toNat (by norm_num)
      hex1 fuel1 1 (le_refl 1) (by simpa using h1)
    simpa using this
  have hrepeat : repeatExecuteRows (fun pg => executeQuery s (runEngine st)
      (.wellFormed (.query (.mk .star .nil (.cons (.table n a) .nil) none none)))
      files (some (pg : Int)) (some size) false) fuel2 1 =
      st.rows (getReadCsvCallsForFile s f).path := by
    have := repeatExecuteRows_drop _ (st.rows (getReadCsvCallsForFile s f).path)
      (st.cols (getReadCsvCallsForFile s f).path) size.toNat (by omega)
      hex2 fuel2 1 (le_refl 1) (by simpa using h2)
    simpa using this
  exact ⟨hstream.trans hrepeat.symm, hstream⟩

/-- C8 witness: a 5-row object streamed in one page equals three pages of
size 2. -/
theorem stream_rows_eq_repeated_execute_rows_witness :
    chunkRows (generateCsvStream defaultSettings (runEngine (repStore 5))
        (.wellFormed (.query (.mk .star .nil (.cons (.table "sales" "") .nil) none none)))
        [salesFile] 1) =
      repeatExecuteRows (fun pg => executeQuery defaultSettings (runEngine (repStore 5))
        (.wellFormed (.query (.mk .star .nil (.cons (.table "sales" "") .nil) none none)))
        [salesFile] (some (pg : Int)) (some 2) false) 3 1 ∧
    chunkRows (generateCsvStream defaultSettings (runEngine (repStore 5))
        (.wellFormed (.query (.mk .star .nil (.cons (.table "sales" "") .nil) none none)))
        [salesFile] 1) =
      (repStore 5).rows (getReadCsvCallsForFile defaultSettings salesFile).path :=
  stream_rows_eq_repeated_execute_rows defaultSettings (repStore 5) [salesFile]
    salesFile "sales" "" 2 1 3 tablesMapLookup_sales (by norm_num)
    (by decide) (by decide)

/-! ## The HTTP endpoint: claim C10 -/

/-- C10: the HTTP endpoint invokes the service with `size = page_size + 1`,
so the engine statement carries `LIMIT page_size+2` and
`OFFSET (p-1)*(page_size+1)` — not `(p-1)*page_size` — after which the
endpoint re-trims the service rows to `page_size` and recomputes `has_more`
as fetched-rows > page_size. -/
theorem endpoint_shifted_offset_and_retrim :
    (∀ (s : Settings) (text : SqlText) (files : List File) (p : Int)
        (e e' : Expression),
        parseOne text = .ok e →
        validateQueryAndMapTables s e files = .ok e' →
        preparedStatement s text files (some p) (some (s.duckdb_page_size + 1)) false =
          .ok (addLimit e' p (s.duckdb_page_size + 1))) ∧
    (∀ (s : Settings) (proj : Proj) (ctes : CteList) (srcs : SrcList)
        (lim off : Option Int) (p : Int),
        addLimit (.query (.mk proj ctes srcs lim off)) p (s.duckdb_page_size + 1) =
          .query (.mk proj ctes srcs (some (s.duckdb_page_size + 2))
            (some ((p - 1) * (s.duckdb_page_size + 1))))) ∧
    (∀ (p S : Int), 2 ≤ p → 1 ≤ S → (p - 1) * (S + 1) ≠ (p - 1) * S) ∧
    (∀ (s : Settings) (engine : Engine) (text : SqlText) (files : List File)
        (p : Int) (e' : Expression) (res : EngineResult),
        0 ≤ s.duckdb_page_size →
        preparedStatement s text files (some p)
          (some (s.duckdb_page_size + 1)) false = .ok e' →
        engine e' = .ok res →
        endpointExecuteQuery s engine text files p false =
          { columns := res.columns,
            rows := (res.rows.take (s.duckdb_page_size + 1).toNat).take
              s.duckdb_page_size.toNat,
            time := 0,
            has_more := decide (s.duckdb_page_size <
              ((res.rows.take (s.duckdb_page_size + 1).toNat).length : Int)) } ∧
        (endpointExecuteQuery s engine text files p false).rows.length ≤
          s.duckdb_page_size.toNat ∧
        ((endpointExecuteQuery s engine text files p false).has_more = true ↔
          s.duckdb_page_size < (res.rows.length : Int))) := by
  refine ⟨?_, ?_, ?_, ?_⟩
  · intro s text files p e e' hparse hval
    simp [preparedStatement, hparse, hval]
  · intro s proj ctes srcs lim off p
    have h2 : s.duckdb_page_size + 1 + 1 = s.duckdb_page_size + 2 := by ring
    simp [addLimit, h2]
  · intro p S hp hS h
    rw [mul_add, mul_one] at h
    omega
  · intro s engine text files p e' res hS hprep hengine
    have hrun : executeQuery s engine text files (some p)
        (some (s.duckdb_page_size + 1)) false =
        .ok { columns := res.columns,
              rows := res.rows.take (s.duckdb_page_size + 1).toNat,
              time := 0,
              has_more := decide ((res.rows.length : Int) > s.duckdb_page_size + 1) } := by
      simp [executeQuery, hprep, hengine]
    have hend : endpointExecuteQuery s engine text files p false =
        { columns := res.columns,
          rows := (res.rows.take (s.duckdb_page_size + 1).toNat).take
            s.duckdb_page_size.toNat,
          time := 0,
          has_more := decide (s.duckdb_page_size <
            ((res.rows.take (s.duckdb_page_size + 1).toNat).length : Int)) } := by
      rw [endpointExecuteQuery, hrun]
    refine ⟨hend, ?_, ?_⟩
    · rw [hend]
      simp only [List.length_take]
      omega
    · rw [hend]
      simp only [decide_eq_true_eq, List.length_take]
      constructor
      · intro h
        push_cast at h ⊢
        omega
      · intro h
        push_cast at h ⊢
        omega

end Deita
